import Mathlib

/-!
Verification of the data-access and aggregation core of the Team-management
application, embedded shallowly from the TypeScript source.  Times are modelled
as integer Unix milliseconds (what `Date.getTime()` returns); the remote store
tables are modelled as Lean lists and the supabase filter/update/delete calls
as the corresponding list operations.  Each per-insert outcome of the remote
store is passed in as an explicit boolean, since the client receives it as a
value (`{ error }`) rather than an exception.
-/

namespace TeamManagement

/-- Task status, `'pending' | 'in_progress' | 'completed'` in the source. -/
inductive Status
  | pending
  | in_progress
  | completed
deriving DecidableEq, Repr

/-- Friendship status, `'pending' | 'accepted' | 'declined'` in the source. -/
inductive FriendStatus
  | pending
  | accepted
  | declined
deriving DecidableEq, Repr

/-- Notification type, `friend_request | task_deadline | chat | project`. -/
inductive NotifType
  | friend_request
  | task_deadline
  | chat
  | project
deriving DecidableEq, Repr

/-- A row of the `tasks` table, with the fields the verified operations read
or write (`id`, `status`, `project_id`, `assigned_to`, `user_id`). -/
structure Task where
  id : Nat
  status : Status
  projectId : Option Nat
  assignedTo : Nat
  userId : Nat
deriving DecidableEq, Repr

/-- A row of the `projects` table, with the fields the verified operations
touch (`id`, `progress`). -/
structure ProjectRow where
  id : Nat
  progress : ℤ
deriving DecidableEq, Repr

/-- A row of the `friendships` table. -/
structure Friendship where
  requesterId : Nat
  addresseeId : Nat
  status : FriendStatus
deriving DecidableEq, Repr

/-- A row of the `messages` table (`created_at` is assigned by the store and
passed in explicitly here). -/
structure MessageRow where
  senderId : Nat
  receiverId : Nat
  content : String
  read : Bool
  createdAt : Nat
deriving DecidableEq, Repr

/-- A row of the `notifications` table. -/
structure Notification where
  userId : Nat
  title : String
  message : String
  type : NotifType
deriving DecidableEq, Repr

/-- A row of the `profiles` table (auth ids are opaque strings). -/
structure Profile where
  id : String
  username : String
  email : String
deriving DecidableEq, Repr

/-- The authenticated identity handed to the session binder: opaque id,
optional `user_metadata.username`, optional email. -/
structure AuthUser where
  id : String
  metaUsername : Option String
  email : Option String
deriving DecidableEq, Repr

/-- The remote relational store, restricted to the tables the verified
operations touch. -/
structure Store where
  tasks : List Task
  projects : List ProjectRow
  friendships : List Friendship
  messages : List MessageRow
  notifications : List Notification
deriving DecidableEq, Repr

/-! ### Aggregation engine (Activity.tsx) -/

/-- The completed-task count computed by `updateTaskStatus`
(Activity.tsx line 664):
`projectTasks.filter(t => t.status === 'completed' || (t.id === taskId && status === 'completed')).length`. -/
def completedCount (tasks : List Task) (taskId : Nat) (status : Status) : Nat :=
  (tasks.filter fun t =>
    t.status == Status.completed || (t.id == taskId && status == Status.completed)).length

/-- The progress value persisted by `updateTaskStatus` (Activity.tsx
lines 664-666): `Math.round((completedTasks / totalTasks) * 100)` when the
in-memory task list is nonempty, `0` otherwise. -/
def newProgress (tasks : List Task) (taskId : Nat) (status : Status) : ℤ :=
  let totalTasks := tasks.length
  if totalTasks > 0 then
    round (((completedCount tasks taskId status : ℚ) / totalTasks) * 100)
  else 0

/-- The specification's `computeProjectProgress` formula (spec section 4.3):
`0` if the list is empty, otherwise `round(100 * count(status=completed) / count(*))`.
Stated from the spec's words, for comparison with the persisted value. -/
def computeProjectProgress (tasks : List Task) : ℤ :=
  if tasks = [] then 0
  else
    round ((100 : ℚ) *
      (tasks.filter fun t => t.status == Status.completed).length / tasks.length)

/-- A task status change applied to a task list: every row whose id matches
gets the new status.  This is both the SQL
`update tasks set status = ? where id = ?` and the in-memory
`tasks.map(task => task.id === taskId ? { ...task, status } : task)` used by
both pages. -/
def updateStatusList (tasks : List Task) (taskId : Nat) (status : Status) : List Task :=
  tasks.map fun t => if t.id == taskId then { t with status := status } else t

/-- The Todo page's `updateTaskStatus` (part_003 lines 89-106): it updates the
task row's status and nothing else; in particular it never touches the
`projects` table. -/
def todoUpdateTaskStatus (s : Store) (taskId : Nat) (status : Status) : Store :=
  { s with tasks := updateStatusList s.tasks taskId status }

/-- The Projects page's `updateTaskStatus` (Activity.tsx lines 650-680): it
updates the task row's status and then persists `newProgress`, computed from
the in-memory `projectTasks` list, to the selected project's row. -/
def projectsUpdateTaskStatus (s : Store) (projectTasks : List Task)
    (selectedProjectId taskId : Nat) (status : Status) : Store :=
  { s with
    tasks := updateStatusList s.tasks taskId status
    projects := s.projects.map fun p =>
      if p.id == selectedProjectId then
        { p with progress := newProgress projectTasks taskId status }
      else p }

/-- Source `isUpcoming` (Activity.tsx lines 103-108):
`diffInDays = (taskDate - now) / (1000*60*60*24); diffInDays > 0 && diffInDays <= 7`. -/
def isUpcoming (date now : ℤ) : Bool :=
  let diffInDays : ℚ := ((date : ℚ) - (now : ℚ)) / (1000 * 60 * 60 * 24)
  decide (diffInDays > 0) && decide (diffInDays ≤ 7)

/-- Source `isOverdue` (Activity.tsx lines 110-114): `taskDate < now`. -/
def isOverdue (date now : ℤ) : Bool :=
  decide (date < now)

/-- The activity classification buckets. -/
inductive ActivityClass
  | completed
  | overdue
  | upcoming
  | normal
deriving DecidableEq, Repr

/-- The activity classification, assembling the page's predicates with the
precedence the page applies: completed status first, then
`isOverdue(deadline) && status !== 'completed'` (Activity.tsx lines 275-279),
then the upcoming-tab membership
`task.status === 'pending' && isUpcoming(task.deadline)` (lines 136-138),
else normal (in_progress tasks sit in the Current tab whatever their
deadline). -/
def classifyActivity (status : Status) (deadline now : ℤ) : ActivityClass :=
  if status = Status.completed then ActivityClass.completed
  else if isOverdue deadline now then ActivityClass.overdue
  else if status == Status.pending && isUpcoming deadline now then ActivityClass.upcoming
  else ActivityClass.normal

/-- The relative-date buckets produced by `formatDate`; `absolute` stands for
the `toLocaleDateString` fallback branch. -/
inductive RelDate
  | today
  | tomorrow
  | yesterday
  | inDays (n : ℤ)
  | daysAgo (n : ℤ)
  | absolute
deriving DecidableEq, Repr

/-- The day difference computed by `formatDate` (Activity.tsx line 119):
`Math.floor((date.getTime() - now.getTime()) / (1000*60*60*24))`. -/
def floorDiffDays (date now : ℤ) : ℤ :=
  ⌊(((date : ℚ) - (now : ℚ)) / (1000 * 60 * 60 * 24))⌋

/-- Bucket selection on a whole-day difference, following the branch structure
of `formatDate` (Activity.tsx lines 121-130). -/
def bucketOf (n : ℤ) : RelDate :=
  if n = 0 then RelDate.today
  else if n = 1 then RelDate.tomorrow
  else if n = -1 then RelDate.yesterday
  else if 1 < n ∧ n ≤ 7 then RelDate.inDays n
  else if n < -1 ∧ -7 ≤ n then RelDate.daysAgo |n|
  else RelDate.absolute

/-- Source `formatDate` (Activity.tsx lines 116-132) at bucket level: the branch taken
is a function of `Math.floor((date - now) / dayMs)`. -/
def formatDate (date now : ℤ) : RelDate :=
  bucketOf (floorDiffDays date now)

/-! ### Relationship resolver (Friends.tsx, Chat) -/

/-- Source `fetchFriends` (Friends.tsx lines 51-79, same query in Chat and Projects):
rows with `requester_id = userId OR addressee_id = userId` and
`status = accepted`; for each row the endpoint that is not `userId` is
selected (the profile join resolves that id to the counterpart profile). -/
def fetchFriends (userId : Nat) (rows : List Friendship) : List Nat :=
  (rows.filter fun r =>
      (r.requesterId == userId || r.addresseeId == userId)
        && r.status == FriendStatus.accepted).map
    fun r => if r.requesterId == userId then r.addresseeId else r.requesterId

/-- Source `removeFriend` (Friends.tsx lines 226-241): delete the friendship rows
matching `(requester_id = userId AND addressee_id = friendId) OR
(requester_id = friendId AND addressee_id = userId)`; the surviving table
keeps exactly the rows not matching that disjunction. -/
def removeFriend (userId friendId : Nat) (rows : List Friendship) : List Friendship :=
  rows.filter fun r =>
    !((r.requesterId == userId && r.addresseeId == friendId)
      || (r.requesterId == friendId && r.addresseeId == userId))

/-! ### Mutating operations with their notification side channel -/

/-- Source `createTask` (Activity.tsx lines 600-648): insert the task row (status
`pending`, project id of the selected project); on success, when the assignee
differs from the creator, insert one `project` notification for the assignee.
`taskOk` and `notifOk` are the store's per-insert outcomes; the notification
outcome is not inspected by the source, so it cannot affect the result.
Returns the store and whether the operation reported success. -/
def createTask (s : Store) (taskId projId creatorId assignedTo : Nat)
    (title : String) (taskOk notifOk : Bool) : Store × Bool :=
  if taskOk then
    let t : Task := ⟨taskId, Status.pending, some projId, assignedTo, creatorId⟩
    let s1 := { s with tasks := s.tasks ++ [t] }
    let s2 :=
      if assignedTo ≠ creatorId then
        if notifOk then
          { s1 with notifications := s1.notifications ++
              [⟨assignedTo, "New Task Assigned",
                "You have been assigned a new task: " ++ title, NotifType.project⟩] }
        else s1
      else s1
    (s2, true)
  else (s, false)

/-- Source `sendMessage` (Chat, part_001 lines 124-164): insert the message row
(`read` defaults to false); on success insert one `chat` notification for the
receiver, whose outcome the source never inspects. -/
def sendMessage (s : Store) (senderId receiverId : Nat)
    (content senderEmail : String) (createdAt : Nat)
    (msgOk notifOk : Bool) : Store × Bool :=
  if msgOk then
    let m : MessageRow := ⟨senderId, receiverId, content, false, createdAt⟩
    let s1 := { s with messages := s.messages ++ [m] }
    let s2 :=
      if notifOk then
        { s1 with notifications := s1.notifications ++
            [⟨receiverId, "New Message",
              "You have a new message from " ++ senderEmail, NotifType.chat⟩] }
      else s1
    (s2, true)
  else (s, false)

/-- Source `sendFriendRequest` (Friends.tsx lines 155-184): insert the pending
friendship row; on success insert one `friend_request` notification for the
addressee, whose outcome the source never inspects. -/
def sendFriendRequest (s : Store) (requesterId addresseeId : Nat)
    (frOk notifOk : Bool) : Store × Bool :=
  if frOk then
    let s1 := { s with friendships := s.friendships ++
        [⟨requesterId, addresseeId, FriendStatus.pending⟩] }
    let s2 :=
      if notifOk then
        { s1 with notifications := s1.notifications ++
            [⟨addresseeId, "Friend Request",
              "You have received a new friend request", NotifType.friend_request⟩] }
      else s1
    (s2, true)
  else (s, false)

/-- Source `markMessagesAsRead` (Chat, part_001 lines 109-122): SQL
`update messages set read = true where sender_id = friendId and
receiver_id = userId and read = false`, i.e. exactly the matching rows get
`read := true` and every other row is untouched. -/
def markMessagesAsRead (userId friendId : Nat) (msgs : List MessageRow) : List MessageRow :=
  msgs.map fun m =>
    if m.senderId == friendId && m.receiverId == userId && m.read == false then
      { m with read := true }
    else m

/-! ### Session/profile binder (AuthContext, part_000) -/

/-- Source `createProfile` (part_000 lines 200-230): the username is
`user_metadata?.username || "user-" + id.slice(0, 8)` (JS `||` falls through
on the empty string); when the email is missing no row is inserted, otherwise
exactly one profile row is appended. -/
def createProfile (profiles : List Profile) (u : AuthUser) : List Profile :=
  let username :=
    match u.metaUsername with
    | some un => if un = "" then "user-" ++ u.id.take 8 else un
    | none => "user-" ++ u.id.take 8
  match u.email with
  | none => profiles
  | some e => profiles ++ [⟨u.id, username, e⟩]

/-- Source `fetchUserProfile` (part_000 lines 232-253): fetch the profile by id; on
not-found (`PGRST116`) fall through to `createProfile`, otherwise leave the
table unchanged. -/
def fetchUserProfile (profiles : List Profile) (u : AuthUser) : List Profile :=
  if profiles.any fun p => p.id == u.id then profiles
  else createProfile profiles u


/-! ## Theorems -/

/-- The completed-count used by `updateTaskStatus` agrees with the completed
count of the post-change task list whenever the mutated task was not
previously completed (the only transitions the page's buttons issue are
pending to in_progress and in_progress to completed). -/
lemma completedCount_eq_post (tasks : List Task) (taskId : Nat) (st : Status)
    (h : ∀ t ∈ tasks, t.id = taskId → t.status ≠ Status.completed) :
    completedCount tasks taskId st
      = ((updateStatusList tasks taskId st).filter fun t =>
          t.status == Status.completed).length := by
  unfold completedCount updateStatusList
  rw [List.filter_map, List.length_map]
  apply congrArg List.length
  apply List.filter_congr
  intro t ht
  by_cases hid : t.id = taskId
  · have hst := h t ht hid
    simp [hid, hst, Function.comp]
  · simp [hid, Function.comp]

/-- Claim C1 (amended): for every task list, task id and new status, provided
the mutated task was not previously completed (the only transitions the UI
issues), the persisted progress equals the spec's `computeProjectProgress`
on the post-change task list: `0` for the empty list, otherwise
`round(100 * completed / total)`. -/
theorem updateTaskStatus_progress_spec (tasks : List Task) (taskId : Nat) (st : Status)
    (h : ∀ t ∈ tasks, t.id = taskId → t.status ≠ Status.completed) :
    newProgress tasks taskId st
      = computeProjectProgress (updateStatusList tasks taskId st) := by
  rcases eq_or_ne tasks [] with rfl | hne
  · rfl
  · have hpos : 0 < tasks.length := List.length_pos.mpr hne
    have hnil : updateStatusList tasks taskId st ≠ [] := by
      simpa [updateStatusList] using hne
    have hc := completedCount_eq_post tasks taskId st h
    have hlen : (updateStatusList tasks taskId st).length = tasks.length :=
      List.length_map _ _
    unfold newProgress computeProjectProgress
    rw [if_pos hpos, if_neg hnil, hlen, ← hc]
    congr 1
    ring

/-- Witness for claim C1 at the spec's example list: two completed tasks and a
pending one yield a persisted progress of round(100*2/3) on the pending task's
status change. -/
theorem updateTaskStatus_progress_spec_witness :
    newProgress
        [⟨1, Status.completed, none, 0, 0⟩, ⟨2, Status.completed, none, 0, 0⟩,
          ⟨3, Status.pending, none, 0, 0⟩] 3 Status.in_progress
      = computeProjectProgress (updateStatusList
          [⟨1, Status.completed, none, 0, 0⟩, ⟨2, Status.completed, none, 0, 0⟩,
            ⟨3, Status.pending, none, 0, 0⟩] 3 Status.in_progress) :=
  updateTaskStatus_progress_spec _ _ _ (by decide)

/-- Claim C1 as stated is false on the source: moving the only (completed)
task back to pending persists progress 100, while
`round(100 * completed / total)` over the post-change list is 0 — the filter
on Activity.tsx line 664 keeps counting the mutated task's stale completed
status. -/
theorem updateTaskStatus_progress_counterexample :
    newProgress [⟨1, Status.completed, none, 0, 0⟩] 1 Status.pending = 100 ∧
    computeProjectProgress
        (updateStatusList [⟨1, Status.completed, none, 0, 0⟩] 1 Status.pending) = 0 := by
  constructor
  · simp [newProgress, completedCount, round_eq]
  · simp [computeProjectProgress, updateStatusList, round_eq]
    norm_num

/-- Claim C2 (amended): of the two entry points that mutate task status, the
Projects page persists the recomputed progress to the selected project's row,
while the Todo page's `updateTaskStatus` never writes the projects table. -/
theorem taskStatus_entryPoints_progress (s : Store) (projectTasks : List Task)
    (selProjId taskId : Nat) (st : Status) :
    (∀ p ∈ (projectsUpdateTaskStatus s projectTasks selProjId taskId st).projects,
        p.id = selProjId → p.progress = newProgress projectTasks taskId st) ∧
    (todoUpdateTaskStatus s taskId st).projects = s.projects := by
  constructor
  · intro p hp hid
    simp only [projectsUpdateTaskStatus, List.mem_map] at hp
    obtain ⟨q, hq, rfl⟩ := hp
    by_cases h : q.id = selProjId
    · simp [h]
    · simp only [beq_iff_eq, h, if_false] at hid ⊢
  · rfl

/-- Witness for claim C2: on a one-project store the Projects-page entry point
leaves the project row carrying the recomputed progress, and the Todo-page
entry point leaves the projects table untouched. -/
theorem taskStatus_entryPoints_progress_witness :
    ProjectRow.progress ⟨7, newProgress [⟨1, Status.pending, some 7, 0, 0⟩] 1 Status.completed⟩
      = newProgress [⟨1, Status.pending, some 7, 0, 0⟩] 1 Status.completed ∧
    (todoUpdateTaskStatus ⟨[], [⟨7, 0⟩], [], [], []⟩ 1 Status.completed).projects = [⟨7, 0⟩] :=
  ⟨(taskStatus_entryPoints_progress ⟨[], [⟨7, 0⟩], [], [], []⟩
        [⟨1, Status.pending, some 7, 0, 0⟩] 7 1 Status.completed).1
      ⟨7, newProgress [⟨1, Status.pending, some 7, 0, 0⟩] 1 Status.completed⟩
      (by simp [projectsUpdateTaskStatus]) rfl,
    (taskStatus_entryPoints_progress ⟨[], [⟨7, 0⟩], [], [], []⟩ [] 7 1 Status.completed).2⟩

/-- Claim C2 fails as stated: the Todo page's status mutation of a
project-linked task (part_003 lines 89-106) does not recompute the project's
progress — the project row still stores 0 although the completion ratio of
its task list after the mutation is 100. -/
theorem todoUpdate_progress_counterexample :
    (todoUpdateTaskStatus ⟨[⟨1, Status.pending, some 7, 0, 0⟩], [⟨7, 0⟩], [], [], []⟩
        1 Status.completed).projects = [⟨7, 0⟩] ∧
    computeProjectProgress
        (((todoUpdateTaskStatus ⟨[⟨1, Status.pending, some 7, 0, 0⟩], [⟨7, 0⟩], [], [], []⟩
            1 Status.completed).tasks).filter fun t => t.projectId == some 7) = 100 ∧
    (0 : ℤ) ≠ 100 := by
  refine ⟨rfl, ?_, by norm_num⟩
  simp [todoUpdateTaskStatus, updateStatusList, computeProjectProgress, round_eq]

/-- Lemma: `isUpcoming` holds exactly when the deadline is strictly after
`now` and at most seven days (in milliseconds) after it: the source's division
by `1000*60*60*24` preserves both strict positivity and the seven-day bound. -/
lemma isUpcoming_iff (date now : ℤ) :
    isUpcoming date now = true ↔ 0 < date - now ∧ date - now ≤ 7 * 86400000 := by
  have hpos : (0 : ℚ) < 1000 * 60 * 60 * 24 := by norm_num
  unfold isUpcoming
  rw [Bool.and_eq_true, decide_eq_true_eq, decide_eq_true_eq, gt_iff_lt,
    lt_div_iff₀ hpos, div_le_iff₀ hpos, zero_mul]
  have hx : (date : ℚ) - (now : ℚ) = ((date - now : ℤ) : ℚ) := by push_cast; ring
  rw [hx]
  constructor <;> rintro ⟨ha, hb⟩ <;>
    exact ⟨by exact_mod_cast ha, by exact_mod_cast hb⟩

/-- Claim C3 (amended): the activity classification is completed when the
status is completed; overdue when the status is not completed and the
deadline is before `now`; upcoming when the status is pending — not merely
non-completed — and the deadline is strictly after `now` by at most seven
days; and normal otherwise (in particular an in_progress task inside the
seven-day window is normal, not upcoming). -/
theorem classifyActivity_spec (st : Status) (deadline now : ℤ) :
    (st = Status.completed → classifyActivity st deadline now = ActivityClass.completed) ∧
    (st ≠ Status.completed → deadline < now →
      classifyActivity st deadline now = ActivityClass.overdue) ∧
    (st = Status.pending → 0 < deadline - now → deadline - now ≤ 7 * 86400000 →
      classifyActivity st deadline now = ActivityClass.upcoming) ∧
    (st ≠ Status.completed → ¬ deadline < now →
      ¬ (st = Status.pending ∧ 0 < deadline - now ∧ deadline - now ≤ 7 * 86400000) →
      classifyActivity st deadline now = ActivityClass.normal) := by
  refine ⟨?_, ?_, ?_, ?_⟩
  · intro h
    simp [classifyActivity, h]
  · intro h hlt
    simp [classifyActivity, h, isOverdue, hlt]
  · intro h h1 h2
    have hnlt : ¬ deadline < now := by omega
    have hup : isUpcoming deadline now = true := (isUpcoming_iff _ _).mpr ⟨h1, h2⟩
    simp [classifyActivity, h, isOverdue, hnlt, hup]
  · intro h hlt hnup
    have hcond : (st == Status.pending && isUpcoming deadline now) = false := by
      by_cases hp : st = Status.pending
      · have hnb : ¬ (0 < deadline - now ∧ deadline - now ≤ 7 * 86400000) :=
          fun hb => hnup ⟨hp, hb.1, hb.2⟩
        have hup : isUpcoming deadline now = false := by
          rcases Bool.eq_false_or_eq_true (isUpcoming deadline now) with ht | hf
          · exact absurd ((isUpcoming_iff _ _).mp ht) hnb
          · exact hf
        simp [hup]
      · simp [hp]
    simp [classifyActivity, h, isOverdue, hlt, hcond]

/-- Witness for claim C3 at the spec's three examples: a pending task one day
past its deadline is overdue, three days ahead is upcoming, ten days ahead is
normal. -/
theorem classifyActivity_spec_witness :
    classifyActivity Status.pending 0 86400000 = ActivityClass.overdue ∧
    classifyActivity Status.pending (3 * 86400000) 0 = ActivityClass.upcoming ∧
    classifyActivity Status.pending (10 * 86400000) 0 = ActivityClass.normal :=
  ⟨(classifyActivity_spec Status.pending 0 86400000).2.1 (by decide) (by decide),
   (classifyActivity_spec Status.pending (3 * 86400000) 0).2.2.1
     rfl (by decide) (by decide),
   (classifyActivity_spec Status.pending (10 * 86400000) 0).2.2.2
     (by decide) (by decide) (by decide)⟩

/-- Claim C3 fails as stated: an in_progress task with deadline three days
after `now` is not classified upcoming — the upcoming-tab filter
(Activity.tsx line 137) requires `status === 'pending'`, which the claim's
"status is not completed" weakens away; the page shows such a task in the
Current tab with normal styling. -/
theorem classifyActivity_counterexample :
    classifyActivity Status.in_progress (3 * 86400000) 0 = ActivityClass.normal ∧
    ActivityClass.normal ≠ ActivityClass.upcoming := by
  constructor
  · rfl
  · decide

/-- Claim C4: for every accepted friendship row with endpoints a and b,
`fetchFriends a` contains b and `fetchFriends b` contains a — the resolver
returns the endpoint that is not the viewing user — and, as long as no row is
a self-pair (the schema's CHECK that requester and addressee differ), the
viewer's own id never appears in their friend list. -/
theorem fetchFriends_spec (rows : List Friendship) (a b : Nat) (r : Friendship)
    (hmem : r ∈ rows) (hacc : r.status = FriendStatus.accepted)
    (hend : (r.requesterId = a ∧ r.addresseeId = b) ∨
      (r.requesterId = b ∧ r.addresseeId = a))
    (hne : r.requesterId ≠ r.addresseeId) :
    (b ∈ fetchFriends a rows ∧ a ∈ fetchFriends b rows) ∧
    (∀ u, (∀ q ∈ rows, q.requesterId ≠ q.addresseeId) → u ∉ fetchFriends u rows) := by
  constructor
  · rcases hend with ⟨h1, h2⟩ | ⟨h1, h2⟩
    · have hab : a ≠ b := by rw [← h1, ← h2]; exact hne
      constructor
      · refine List.mem_map.mpr ⟨r, List.mem_filter.mpr ⟨hmem, ?_⟩, ?_⟩
        · simp [h1, hacc]
        · simp [h1, h2]
      · refine List.mem_map.mpr ⟨r, List.mem_filter.mpr ⟨hmem, ?_⟩, ?_⟩
        · simp [h2, hacc]
        · simp [h1, h2, hab]
    · have hab : a ≠ b := by rw [← h2, ← h1]; exact hne.symm
      constructor
      · refine List.mem_map.mpr ⟨r, List.mem_filter.mpr ⟨hmem, ?_⟩, ?_⟩
        · simp [h2, hacc]
        · simp [h1, h2, hab.symm]
      · refine List.mem_map.mpr ⟨r, List.mem_filter.mpr ⟨hmem, ?_⟩, ?_⟩
        · simp [h1, hacc]
        · simp [h1, h2]
  · intro u hq hu
    rcases List.mem_map.mp hu with ⟨q, hqf, hqe⟩
    rcases List.mem_filter.mp hqf with ⟨hqrows, _⟩
    by_cases hr : q.requesterId = u
    · rw [if_pos (by simpa using hr)] at hqe
      exact hq q hqrows (by rw [hr, hqe])
    · rw [if_neg (by simpa using hr)] at hqe
      exact hr hqe

/-- Witness for claim C4 on a one-row table: the accepted row (1,2) makes 2 a
friend of 1 and 1 a friend of 2. -/
theorem fetchFriends_spec_witness :
    2 ∈ fetchFriends 1 [⟨1, 2, FriendStatus.accepted⟩] ∧
    1 ∈ fetchFriends 2 [⟨1, 2, FriendStatus.accepted⟩] :=
  ⟨((fetchFriends_spec [⟨1, 2, FriendStatus.accepted⟩] 1 2 ⟨1, 2, FriendStatus.accepted⟩
      (by decide) rfl (Or.inl ⟨rfl, rfl⟩) (by decide)).1).1,
   ((fetchFriends_spec [⟨1, 2, FriendStatus.accepted⟩] 1 2 ⟨1, 2, FriendStatus.accepted⟩
      (by decide) rfl (Or.inl ⟨rfl, rfl⟩) (by decide)).1).2⟩

/-- Claim C5: on a successful task creation, when the assignee differs from
the creator exactly one `project` notification row is inserted for the
assignee, and when the task is assigned to the creator no notification row is
inserted. -/
theorem createTask_notification_spec (s : Store) (taskId projId creatorId assignedTo : Nat)
    (title : String) :
    (assignedTo ≠ creatorId →
      (createTask s taskId projId creatorId assignedTo title true true).1.notifications
        = s.notifications ++
            [⟨assignedTo, "New Task Assigned",
              "You have been assigned a new task: " ++ title, NotifType.project⟩]) ∧
    (assignedTo = creatorId →
      (createTask s taskId projId creatorId assignedTo title true true).1.notifications
        = s.notifications) := by
  constructor
  · intro h
    simp [createTask, h]
  · intro h
    simp [createTask, h]

/-- Witness for claim C5 on the empty store: assigning to user 20 (creator 10)
leaves exactly one project notification for 20; assigning to the creator
leaves none. -/
theorem createTask_notification_spec_witness :
    (createTask ⟨[], [], [], [], []⟩ 1 7 10 20 "t" true true).1.notifications
      = [⟨20, "New Task Assigned", "You have been assigned a new task: t",
          NotifType.project⟩] ∧
    (createTask ⟨[], [], [], [], []⟩ 1 7 10 10 "t" true true).1.notifications = [] :=
  ⟨(createTask_notification_spec ⟨[], [], [], [], []⟩ 1 7 10 20 "t").1 (by decide),
   (createTask_notification_spec ⟨[], [], [], [], []⟩ 1 7 10 10 "t").2 rfl⟩

/-- Claim C7: for each of the three triggering mutations — sending a message,
sending a friend request, creating an assigned task — when the primary insert
succeeds, the operation reports success and the inserted row is in the final
store regardless of the notification insert's outcome: the unchecked
notification result cannot fail the operation or undo the committed row. -/
theorem notificationFailure_nonfatal (s : Store) (senderId receiverId : Nat)
    (content senderEmail : String) (createdAt : Nat)
    (requesterId addresseeId taskId projId creatorId assignedTo : Nat)
    (title : String) (notifOk : Bool) :
    ((sendMessage s senderId receiverId content senderEmail createdAt true notifOk).2 = true ∧
      (⟨senderId, receiverId, content, false, createdAt⟩ : MessageRow)
        ∈ (sendMessage s senderId receiverId content senderEmail createdAt true notifOk).1.messages) ∧
    ((sendFriendRequest s requesterId addresseeId true notifOk).2 = true ∧
      (⟨requesterId, addresseeId, FriendStatus.pending⟩ : Friendship)
        ∈ (sendFriendRequest s requesterId addresseeId true notifOk).1.friendships) ∧
    ((createTask s taskId projId creatorId assignedTo title true notifOk).2 = true ∧
      (⟨taskId, Status.pending, some projId, assignedTo, creatorId⟩ : Task)
        ∈ (createTask s taskId projId creatorId assignedTo title true notifOk).1.tasks) := by
  rcases eq_or_ne assignedTo creatorId with h | h <;> cases notifOk <;>
    simp [sendMessage, sendFriendRequest, createTask, h]

/-- Claim C6 (amended): on a sign-in whose identity has no profile row, no
(nonempty) metadata username and a present email, exactly one profile row is
created with username `"user-"` followed by the first 8 characters of the id
(when the metadata carries a username, that is used instead; when the email
is missing, no row is created), and a repeated sign-in for the same identity
leaves the table unchanged. -/
theorem fetchUserProfile_spec (profiles : List Profile) (u : AuthUser) (e : String)
    (hmeta : u.metaUsername = none ∨ u.metaUsername = some "")
    (hemail : u.email = some e)
    (hnone : ∀ p ∈ profiles, p.id ≠ u.id) :
    fetchUserProfile profiles u
      = profiles ++ [⟨u.id, "user-" ++ u.id.take 8, e⟩] ∧
    fetchUserProfile (fetchUserProfile profiles u) u = fetchUserProfile profiles u := by
  have hany : (profiles.any fun p => p.id == u.id) = false := by
    rw [List.any_eq_false]
    intro p hp
    simp [hnone p hp]
  have h1 : fetchUserProfile profiles u
      = profiles ++ [⟨u.id, "user-" ++ u.id.take 8, e⟩] := by
    unfold fetchUserProfile
    rw [hany]
    simp only [Bool.false_eq_true, if_false]
    unfold createProfile
    rcases hmeta with h | h
    · rw [h, hemail]
    · rw [h, hemail]
      simp
  refine ⟨h1, ?_⟩
  rw [h1]
  have hfound : ((profiles ++ [(⟨u.id, "user-" ++ u.id.take 8, e⟩ : Profile)]).any
      fun p => p.id == u.id) = true := by
    simp
  unfold fetchUserProfile
  rw [hfound]
  simp

/-- Witness for claim C6: an identity with no metadata username gets exactly
one profile row whose username is "user-" plus the 8-character id prefix. -/
theorem fetchUserProfile_spec_witness :
    fetchUserProfile [] ⟨"abcd1234-xyz", none, some "a@b"⟩
      = [⟨"abcd1234-xyz", "user-" ++ ("abcd1234-xyz".take 8), "a@b"⟩] :=
  (fetchUserProfile_spec [] ⟨"abcd1234-xyz", none, some "a@b"⟩ "a@b"
    (Or.inl rfl) rfl (by decide)).1

/-- Claim C6 fails as stated: when the identity's metadata carries a username
(as every account created through `signUp` does), the created profile row
uses that username, not `"user-"` plus the 8-character id prefix. -/
theorem createProfile_username_counterexample :
    fetchUserProfile [] ⟨"abcd1234-xyz", some "alice", some "a@b"⟩
      = [⟨"abcd1234-xyz", "alice", "a@b"⟩] ∧
    "alice" ≠ "user-" ++ ("abcd1234-xyz".take 8) := by
  constructor <;> decide

/-- Claim C8 (amended): `formatDate` buckets by the number of whole elapsed
24-hour periods between the two instants,
`Math.floor((date - now) / dayMs)` — whenever
`n * dayMs ≤ date - now < (n+1) * dayMs`, the result is the bucket selected
by `n` — rather than by the calendar-day difference. -/
theorem formatDate_floor_spec (date now n : ℤ)
    (h1 : n * 86400000 ≤ date - now) (h2 : date - now < (n + 1) * 86400000) :
    formatDate date now = bucketOf n := by
  have hpos : (0 : ℚ) < 1000 * 60 * 60 * 24 := by norm_num
  have hfloor : floorDiffDays date now = n := by
    unfold floorDiffDays
    rw [Int.floor_eq_iff, le_div_iff₀ hpos, div_lt_iff₀ hpos]
    constructor
    · have hc : ((n * 86400000 : ℤ) : ℚ) ≤ ((date - now : ℤ) : ℚ) := by exact_mod_cast h1
      push_cast at hc ⊢
      linarith
    · have hc : ((date - now : ℤ) : ℚ) < (((n + 1) * 86400000 : ℤ) : ℚ) := by exact_mod_cast h2
      push_cast at hc ⊢
      linarith
  rw [formatDate, hfloor]

/-- Witness for claim C8: a date 24 hours ahead of `now` lands in the
whole-day-1 bucket (Tomorrow). -/
theorem formatDate_floor_spec_witness :
    formatDate 90000000 3600000 = bucketOf 1 :=
  formatDate_floor_spec 90000000 3600000 1 (by norm_num) (by norm_num)

/-- Claim C8 fails as stated: with the date fixed at 01:00 of UTC day 1, a
`now` of 01:00 and a `now` of 23:00 of UTC day 0 — the same calendar day,
both with whole-day index 0 — produce different buckets (Tomorrow versus
Today), because line 119 floors the fractional difference instead of
comparing calendar days. -/
theorem formatDate_counterexample :
    floorDiffDays 3600000 0 = 0 ∧ floorDiffDays 82800000 0 = 0 ∧
    formatDate 90000000 3600000 = RelDate.tomorrow ∧
    formatDate 90000000 82800000 = RelDate.today := by
  have ha : floorDiffDays 3600000 0 = 0 := by norm_num [floorDiffDays]
  have hb : floorDiffDays 82800000 0 = 0 := by norm_num [floorDiffDays]
  have hc : floorDiffDays 90000000 3600000 = 1 := by norm_num [floorDiffDays]
  have hd : floorDiffDays 90000000 82800000 = 0 := by norm_num [floorDiffDays]
  exact ⟨ha, hb, by rw [formatDate, hc]; rfl, by rw [formatDate, hd]; rfl⟩

/-- Claim C9: opening a conversation marks as read exactly the unread
messages sent by the selected friend to the viewer — row `i` of the result is
row `i` of the input with `read := true` when it matches (sender = friend,
receiver = viewer, unread) and every other field equal, and is unchanged
otherwise; the table's length is preserved. -/
theorem markMessagesAsRead_spec (userId friendId : Nat) (msgs : List MessageRow)
    (i : Nat) (m : MessageRow) (h : msgs[i]? = some m) :
    (markMessagesAsRead userId friendId msgs).length = msgs.length ∧
    (markMessagesAsRead userId friendId msgs)[i]?
      = some (if m.senderId = friendId ∧ m.receiverId = userId ∧ m.read = false
          then ⟨m.senderId, m.receiverId, m.content, true, m.createdAt⟩
          else m) := by
  constructor
  · simp [markMessagesAsRead]
  · rw [markMessagesAsRead, List.getElem?_map, h, Option.map_some']
    have hb : (m.senderId == friendId && m.receiverId == userId && m.read == false) = true
        ↔ (m.senderId = friendId ∧ m.receiverId = userId ∧ m.read = false) := by
      simp [Bool.and_eq_true, and_assoc]
    by_cases hc : m.senderId = friendId ∧ m.receiverId = userId ∧ m.read = false
    · rw [if_pos (hb.mpr hc), if_pos hc]
    · rw [if_neg (fun hh => hc (hb.mp hh)), if_neg hc]

/-- Witness for claim C9: an unread message from friend 2 to viewer 1 gets
`read := true` with sender, receiver, content and timestamp intact. -/
theorem markMessagesAsRead_spec_witness :
    (markMessagesAsRead 1 2 [⟨2, 1, "hi", false, 5⟩])[0]? = some ⟨2, 1, "hi", true, 5⟩ := by
  have h := (markMessagesAsRead_spec 1 2 [⟨2, 1, "hi", false, 5⟩] 0
    ⟨2, 1, "hi", false, 5⟩ rfl).2
  rw [h, if_pos ⟨rfl, rfl, rfl⟩]

/-- Claim C10: a row survives `removeFriend` exactly when it was present
before and its endpoint pair is not the viewer-friend pair in either
orientation — so both orientations of the pair are deleted and every other
pair's rows are untouched. -/
theorem removeFriend_spec (userId friendId : Nat) (rows : List Friendship)
    (r : Friendship) :
    r ∈ removeFriend userId friendId rows ↔
      r ∈ rows ∧
        ¬((r.requesterId = userId ∧ r.addresseeId = friendId) ∨
          (r.requesterId = friendId ∧ r.addresseeId = userId)) := by
  simp only [removeFriend, List.mem_filter, Bool.not_eq_true', Bool.or_eq_false_iff,
    Bool.and_eq_false_iff, beq_eq_false_iff_ne, ne_eq, not_or]
  tauto

/-- Witness for claim C10: removing friend 2 as viewer 1 deletes the (1,2)
row and keeps the unrelated (3,4) row. -/
theorem removeFriend_spec_witness :
    (⟨3, 4, FriendStatus.accepted⟩ : Friendship)
        ∈ removeFriend 1 2 [⟨1, 2, FriendStatus.accepted⟩, ⟨3, 4, FriendStatus.accepted⟩] ∧
    (⟨1, 2, FriendStatus.accepted⟩ : Friendship)
        ∉ removeFriend 1 2 [⟨1, 2, FriendStatus.accepted⟩, ⟨3, 4, FriendStatus.accepted⟩] :=
  ⟨(removeFriend_spec 1 2 _ _).mpr (by decide),
   fun hmem => absurd ((removeFriend_spec 1 2 _ _).mp hmem).2 (by decide)⟩

end TeamManagement
